import Mathlib

/-!
Verification of the AI-assisted mobile UI test-automation library
(`Agent` package): a shallow embedding in Lean 4 of the components that
the specification's claims are about, together with theorems settling
those claims.

Conventions used throughout the embedding:
* Python dictionaries parsed from model JSON replies are association
  lists `List (String × Json)`; `dict.get(k)` is `dictGet`.
* Python exceptions (`AssertionError`, `ValueError`, `TypeError`,
  `KeyError`) are `Except String` errors carrying the formatted message
  (or a dedicated error type when the message interpolates a float).
* Python floats are modelled as rationals `ℚ`; for every concrete value
  appearing in a claim the double-precision rounding error (< 1e-13) is
  far smaller than the distance to the nearest integer or half-way
  boundary, so the rational model agrees with the float computation.
* `None`-able values are `Option`; Python truthiness of a string is
  `≠ ""`, of a list is non-emptiness, of `None` is false.
-/

namespace AgentSpec

/-- JSON values as produced by parsing a model reply
(`extract_json_safely` returns a Python dict of such values). -/
inductive Json where
  | null
  | bool (b : Bool)
  | num (q : ℚ)
  | str (s : String)
  | arr (elems : List Json)
  | obj (fields : List (String × Json))

/-- Python truthiness of a JSON value (`if x:`): `None`, `False`, `0`,
`""`, `[]` and `{}` are falsy, everything else truthy. -/
def Json.falsy : Json → Bool
  | .null => true
  | .bool b => !b
  | .num q => decide (q = 0)
  | .str s => decide (s = "")
  | .arr elems => elems.isEmpty
  | .obj fields => fields.isEmpty

/-- Python `d.get(k)` on a dict represented as an association list
(first binding wins; parsed JSON objects have unique keys). -/
def dictGet (fields : List (String × Json)) (k : String) : Option Json :=
  (fields.find? (fun kv => kv.fst == k)).map (fun kv => kv.snd)

/-- One UI-tree candidate as extracted by `DeviceConnector.parse_ui`
(src/Agent/platforms/_mobileconnector.py, lines 34-44): the attribute
values captured for a node. -/
structure UiCandidate where
  text : String
  resource_id : String
  class_name : String
  content_desc : String
  package : String
  clickable : Bool
  enabled : Bool
  bounds : String
  index : String
deriving Repr, DecidableEq, Inhabited

/-- A dispatched Robot Framework keyword invocation, as issued by
`AgentStepRunner._run_rf_keyword` from `_execute_do_from_tool_calls`
(src/Agent/_step_runner.py, lines 127-158). -/
inductive RfCall where
  | clickElement (locator : String)
  | clearText (locator : String)
  | inputText (locator : String) (text : String)
  | swipe (startX startY endX endY duration : String)
deriving Repr, DecidableEq

/-- The fields of one tool call that `_execute_do_from_tool_calls`
reads: `tool_call["function"]["name"]`, and from
`tool_call["function"]["arguments"]` the keys `element_index`
(`arguments.get("element_index")`, an integer when present) and `text`
(`arguments.get("text")`). -/
structure ToolCall where
  name : String
  element_index : Option Int
  text : Option String
deriving Repr, DecidableEq

/-- The message of the `AssertionError` raised for an out-of-range
`element_index` (src/Agent/_step_runner.py, lines 130 and 142):
`f"Invalid element_index: {element_index}. Must be 1-{len(ui_candidates)}"`.
Python renders a missing index as `None`. -/
def outOfRangeMsg (idx : Option Int) (n : Nat) : String :=
  "Invalid element_index: " ++
    (match idx with
      | none => "None"
      | some i => toString i) ++
    ". Must be 1-" ++ toString n

/-- The message of the `AssertionError` raised when `input_text` has no
usable text (src/Agent/_step_runner.py, line 145). -/
def missingTextMsg : String := "\x27input_text\x27 requires text argument"

/-- Embedding of the per-tool-call dispatch of
`AgentStepRunner._execute_do_from_tool_calls`
(src/Agent/_step_runner.py, lines 122-158), for the first tool call.
`buildLocator` stands for `self.platform.build_locator_from_element`
(its implementation is external to the dispatch logic); the returned
list records the Robot Framework keywords executed, in order. -/
def execToolCall (buildLocator : UiCandidate → String)
    (candidates : List UiCandidate) (tc : ToolCall) :
    Except String (List RfCall) :=
  let n := candidates.length
  if tc.name = "tap_element" then
    match tc.element_index with
    | none => Except.error (outOfRangeMsg none n)
    | some i =>
      if i < 1 ∨ i > (n : Int) then Except.error (outOfRangeMsg (some i) n)
      else
        let element := candidates.getD (i - 1).toNat default
        let rf_locator := buildLocator element
        Except.ok [RfCall.clickElement rf_locator]
  else if tc.name = "input_text" then
    match tc.element_index with
    | none => Except.error (outOfRangeMsg none n)
    | some i =>
      if i < 1 ∨ i > (n : Int) then Except.error (outOfRangeMsg (some i) n)
      else if tc.text = none ∨ tc.text = some "" then
        Except.error missingTextMsg
      else
        let element := candidates.getD (i - 1).toNat default
        let rf_locator := buildLocator element
        Except.ok [RfCall.clearText rf_locator,
                   RfCall.inputText rf_locator ((tc.text).getD "")]
  else if tc.name = "scroll_down" then
    Except.ok [RfCall.swipe "50" "80" "50" "20" "500"]
  else
    Except.error ("Unknown tool call: " ++ tc.name)

/-- Embedding of the preamble of `_execute_do_from_tool_calls`
(src/Agent/_step_runner.py, lines 114-121):
`tool_calls = result.get("tool_calls", [])`, raise when falsy, else
select `tool_calls[0]`.  A truthy non-list value would also raise in
Python (it is not subscriptable at `["function"]`); no claim exercises
that branch. -/
def selectFirstToolCall (result : List (String × Json)) :
    Except String Json :=
  let tool_calls := (dictGet result "tool_calls").getD (Json.arr [])
  if tool_calls.falsy then Except.error "AI did not return any tool calls"
  else
    match tool_calls with
    | Json.arr (t :: _) => Except.ok t
    | _ => Except.error "tool_calls is not a list"

/-- The five actions of `AgentKeywordCatalog._get_do_keywords`
(src/Agent/ai/_promptcomposer.py, lines 250-304), in catalog order. -/
def doActionEnum : List String := ["open", "tap", "type", "clear", "swipe"]

/-- The six locator strategies of
`DeviceConnector.get_locator_strategies`
(src/Agent/platforms/_mobileconnector.py, lines 93-101). -/
def locatorStrategies : List String :=
  ["id", "accessibility_id", "xpath", "class_name",
   "android_uiautomator", "ios_predicate"]

/-- The property names of `AgentPromptComposer._get_do_output_schema`
(src/Agent/ai/_promptcomposer.py, lines 66-101); the schema sets
`additionalProperties: false`, so a conforming reply has no other
keys. -/
def doSchemaKeys : List String :=
  ["action", "locator", "text", "options", "candidates"]

/-- A JSON value conforming to the `locator` sub-schema of the Do
output schema: an object with required string `strategy` (from the
strategy enum) and required string `value`. -/
def locatorConforms (j : Json) : Prop :=
  ∃ fields, j = Json.obj fields ∧
    (∃ s, dictGet fields "strategy" = some (Json.str s) ∧
      s ∈ locatorStrategies) ∧
    (∃ v, dictGet fields "value" = some (Json.str v))

/-- A parsed model reply conforming to the Do output schema emitted by
`_get_do_output_schema`: required `action` (from the action enum) and
`locator`, and — because of `additionalProperties: false` — no key
outside `action`, `locator`, `text`, `options`, `candidates`. -/
def conformsToDoSchema (reply : List (String × Json)) : Prop :=
  (∀ kv ∈ reply, kv.fst ∈ doSchemaKeys) ∧
  (∃ a, dictGet reply "action" = some (Json.str a) ∧ a ∈ doActionEnum) ∧
  (∃ l, dictGet reply "locator" = some l ∧ locatorConforms l)

/-- The failure message built by
`_execute_visual_check_from_tool_calls` when verification fails
(src/Agent/_step_runner.py, lines 233-235): the analysis text, then —
when any issues were reported — the first three issues joined with
`", "`. -/
def visualFailMsg (analysis : String) (issues : List String) : String :=
  "Visual verification failed. Analysis: " ++ analysis ++
    (if issues.isEmpty then ""
     else " Issues: " ++ String.intercalate ", " (issues.take 3))

/-- Embedding of the final assertion of
`_execute_visual_check_from_tool_calls`
(src/Agent/_step_runner.py, lines 229-236): pass when
`verification_result` is truthy, otherwise raise an `AssertionError`
carrying `visualFailMsg`. -/
def assertVisualResult (verification_result : Json) (analysis : String)
    (issues : List String) : Except String Unit :=
  if verification_result.falsy then
    Except.error (visualFailMsg analysis issues)
  else Except.ok ()

/-- Parameter names of `AiConnector.ask_ai_visual_check`
(src/Agent/ai/_aiconnector.py, lines 33-38), `self` excluded; the
method declares no `**kwargs`. -/
def askAiVisualCheckParams : List String :=
  ["instruction", "image_base_or_url", "temperature"]

/-- Keyword-argument names used at the call site in
`AgentStepRunner.visual_check` (src/Agent/_step_runner.py,
lines 63-67). -/
def visualCheckCallKeywords : List String :=
  ["instruction", "image_url", "temperature"]

/-- Python call binding: a keyword-argument call to a function without
a var-keyword parameter raises `TypeError` unless every supplied
keyword names a declared parameter. -/
def kwargsBindOk (params : List String) (kwargs : List String) : Bool :=
  kwargs.all (fun k => params.contains k)

/-- The `TypeError` message Python raises for the mismatched call. -/
def visualCheckTypeErrorMsg : String :=
  "TypeError: ask_ai_visual_check() got an unexpected keyword argument \x27image_url\x27"

/-- Embedding of the AI-request step of `AgentStepRunner.visual_check`
(src/Agent/_step_runner.py, lines 63-67): the screenshot has already
been captured, embedded into the log and uploaded (`image_url`), and
the runner now calls `self.agent.ask_ai_visual_check(instruction=...,
image_url=..., temperature=0)`.  `aiCall` stands for the body of
`AiConnector.ask_ai_visual_check`; it is only reached if the keyword
arguments bind. -/
def visualCheckAiRequestStep
    (aiCall : String → String → ℚ → Except String Unit)
    (instruction image_url : String) : Except String Unit :=
  if kwargsBindOk askAiVisualCheckParams visualCheckCallKeywords then
    aiCall instruction image_url 0
  else Except.error visualCheckTypeErrorMsg

/-- A node of the parsed UI XML tree: its attribute list and its child
nodes (the shape `xml.etree.ElementTree` exposes to
`DeviceConnector.parse_ui`). -/
inductive UiNode where
  | node (attrs : List (String × String)) (children : List UiNode)

/-- Attribute list of a node. -/
def UiNode.attrs : UiNode → List (String × String)
  | .node a _ => a

/-- Children of a node. -/
def UiNode.children : UiNode → List UiNode
  | .node _ c => c

/-- XML attribute access with default, `node.get(key, dflt)`. -/
def attrGet (attrs : List (String × String)) (key dflt : String) : String :=
  (((attrs.find? (fun kv => kv.fst == key)).map (fun kv => kv.snd)).getD dflt)

/-- Python `str.lower()` restricted to ASCII, which covers the
`clickable`/`enabled` attribute values (`"true"`, `"false"`, and
casings thereof) it is applied to. -/
def asciiLower (s : String) : String := String.mk (s.data.map Char.toLower)

/-- The candidate record built inside `parse_ui`'s `walk`
(src/Agent/platforms/_mobileconnector.py, lines 34-44). -/
def nodeToCandidate (attrs : List (String × String)) : UiCandidate :=
  { text := attrGet attrs "text" ""
    resource_id := attrGet attrs "resource-id" ""
    class_name := attrGet attrs "class" ""
    content_desc := attrGet attrs "content-desc" ""
    package := attrGet attrs "package" ""
    clickable := asciiLower (attrGet attrs "clickable" "false") == "true"
    enabled := asciiLower (attrGet attrs "enabled" "false") == "true"
    bounds := attrGet attrs "bounds" ""
    index := attrGet attrs "index" "" }

/-- Whether `walk` appends the node to `candidates`
(src/Agent/platforms/_mobileconnector.py, line 46). -/
def candidateKept (c : UiCandidate) : Bool := c.clickable && c.enabled

/-- The `max_depth` bound of `parse_ui`'s `walk` (line 30). -/
def maxWalkDepth : Nat := 12

/-- Embedding of `parse_ui`'s recursive `walk`
(src/Agent/platforms/_mobileconnector.py, lines 30-52).  The fuel
argument is `max_depth - depth + 1`: `walk` returns immediately when
`depth > max_depth`, so a node is processed exactly when fuel is
positive; children are walked with one unit less.  The outer call
`walk(root)` corresponds to fuel `maxWalkDepth + 1`. -/
def walkNodes : Nat → UiNode → List UiCandidate
  | 0, _ => []
  | fuel + 1, n =>
    let cand := nodeToCandidate n.attrs
    (if candidateKept cand then [cand] else []) ++
      (n.children.map (walkNodes fuel)).flatten

/-- Preorder listing of the attribute lists of all nodes reachable
within the given fuel; used to state which nodes `walk` visits. -/
def preorderAttrs : Nat → UiNode → List (List (String × String))
  | 0, _ => []
  | fuel + 1, n =>
    n.attrs :: (n.children.map (preorderAttrs fuel)).flatten

/-- The relevance score of `parse_ui`'s `sort_key`
(src/Agent/platforms/_mobileconnector.py, lines 54-59): `+3` for a
non-empty `text`, `+2` for a non-empty `content_desc`, `+1` for a
non-empty `resource_id`. -/
def sortKey (item : UiCandidate) : Nat :=
  (if item.text ≠ "" then 3 else 0) +
    (if item.content_desc ≠ "" then 2 else 0) +
    (if item.resource_id ≠ "" then 1 else 0)

/-- Stable insertion keeping descending `sortKey` order: the new
element goes after every element of strictly greater score and before
the first element of score ≤ its own. -/
def insertByScore (c : UiCandidate) : List UiCandidate → List UiCandidate
  | [] => [c]
  | x :: xs =>
    if sortKey c < sortKey x then x :: insertByScore c xs
    else c :: x :: xs

/-- Embedding of `candidates.sort(key=sort_key, reverse=True)`
(src/Agent/platforms/_mobileconnector.py, line 61): CPython's sort is
stable, and with `reverse=True` elements of equal key keep their
original order.  Stable insertion sort has exactly that semantics
(descending scores, equal scores in input order), which the theorems
below establish (sortedness, permutation, and score-wise filter
preservation — properties that determine the result uniquely). -/
def sortCandidates : List UiCandidate → List UiCandidate
  | [] => []
  | x :: xs => insertByScore x (sortCandidates xs)

/-- Candidate collection stage of `parse_ui` (lines 30-52): the
depth-limited walk from the root at depth 0. -/
def collectCandidates (root : UiNode) : List UiCandidate :=
  walkNodes (maxWalkDepth + 1) root

/-- Embedding of `DeviceConnector.parse_ui`
(src/Agent/platforms/_mobileconnector.py, lines 25-62) on an already
parsed tree: collect, sort descending by score, truncate to
`max_items`.  (On an XML parse error the Python function logs and
returns `[]` without reaching this logic.) -/
def parse_ui (root : UiNode) (max_items : Nat) : List UiCandidate :=
  ((sortCandidates (collectCandidates root)).take max_items)

/-- Embedding of `DeviceConnector.to_rf_locator`
(src/Agent/platforms/_mobileconnector.py, lines 70-91).  The inputs
are `locator.get("strategy")` and `locator.get("value")`; a missing or
empty (falsy) strategy or value raises an `AssertionError`; an unknown
strategy logs a warning and returns the raw value. -/
def to_rf_locator (strategy value : Option String) : Except String String :=
  if strategy = none ∨ strategy = some "" ∨ value = none ∨ value = some "" then
    Except.error "Locator doit inclure \x27strategy\x27 et \x27value\x27"
  else
    let s := strategy.getD ""
    let v := value.getD ""
    if s = "id" then Except.ok ("id=" ++ v)
    else if s = "accessibility_id" then Except.ok ("accessibility_id=" ++ v)
    else if s = "xpath" then Except.ok v
    else if s = "class_name" then Except.ok ("class=" ++ v)
    else if s = "android_uiautomator" then
      Except.ok ("android=uiautomator=" ++ v)
    else if s = "ios_predicate" then
      Except.ok ("-ios predicate string:" ++ v)
    else Except.ok v

/-- Python `int()` on a (nonnegative or negative) number: truncation
toward zero. -/
def truncToInt (q : ℚ) : ℤ :=
  if q < 0 then -⌊-q⌋ else ⌊q⌋

/-- Embedding of `OmniParserOrchestrator.bbox_to_pixels`
(src/Agent/ai/vlm/omniparser_orchestrator.py, lines 152-190): raise
`ValueError` unless the bbox has exactly 4 values, else truncate each
normalized coordinate times its dimension with `int()`. -/
def bbox_to_pixels (bbox_normalized : List ℚ)
    (image_width image_height : ℤ) : Except String (ℤ × ℤ × ℤ × ℤ) :=
  match bbox_normalized with
  | [x1, y1, x2, y2] =>
    Except.ok (truncToInt (x1 * image_width), truncToInt (y1 * image_height),
               truncToInt (x2 * image_width), truncToInt (y2 * image_height))
  | other =>
    Except.error ("bbox doit contenir 4 valeurs, reçu " ++
      toString other.length)

/-- Python `round(q)` (ties to even), the rounding primitive under
`round(x, 5)`. -/
def roundHalfEvenToInt (q : ℚ) : ℤ :=
  if q - (⌊q⌋ : ℚ) < 1/2 then ⌊q⌋
  else if (1/2 : ℚ) < q - (⌊q⌋ : ℚ) then ⌊q⌋ + 1
  else if ⌊q⌋ % 2 = 0 then ⌊q⌋ else ⌊q⌋ + 1

/-- Python `round(x, 5)`: round to 5 decimal places, ties to even. -/
def pyRound5 (q : ℚ) : ℚ :=
  ((roundHalfEvenToInt (q * 100000) : ℚ) / 100000)

/-- The persisted cost ledger (`/tmp/ai_cost_tracker.json`),
`{"cost": float, "tokens": int}`; a missing or corrupt file reads as
`{cost: 0.0, tokens: 0}` (src/Agent/utilities/_tiktoken.py,
lines 189-198). -/
structure CostLedger where
  cost : ℚ
  tokens : ℤ
deriving Repr, DecidableEq

/-- The dictionary returned by `TokenHelper.calculate_cost`. -/
structure CostBreakdown where
  input_cost : ℚ
  output_cost : ℚ
  total_cost : ℚ
deriving Repr, DecidableEq

/-- Pricing lookup in the `PRICING` table (per-1000-token input/output
prices, keyed by model name). -/
def lookupPricing (pricing : List (String × ℚ × ℚ)) (model : String) :
    Option (ℚ × ℚ) :=
  (pricing.find? (fun kv => kv.fst == model)).map (fun kv => kv.snd)

/-- Embedding of `TokenHelper.calculate_cost`
(src/Agent/utilities/_tiktoken.py, lines 153-187).  `pricing` is the
catalog-loaded `PRICING` table and `self_model` the singleton's model
name; the ledger is passed and returned explicitly in place of the
locked file read/write (`_load_costs`/`_save_costs`).  A model absent
from the table falls back to `"gpt-4o-mini"`; if even the fallback is
absent Python would raise `KeyError`, modelled as the error case. -/
def calculate_cost (pricing : List (String × ℚ × ℚ)) (self_model : String)
    (ledger : CostLedger) (prompt_tokens completion_tokens : ℤ)
    (model : Option String) : Except String (CostBreakdown × CostLedger) :=
  let m0 := match model with
    | none => self_model
    | some s => if s = "" then self_model else s
  let m := if (lookupPricing pricing m0).isSome then m0 else "gpt-4o-mini"
  match lookupPricing pricing m with
  | none => Except.error ("KeyError: " ++ m)
  | some price =>
    let input_cost := pyRound5 ((prompt_tokens : ℚ) / 1000 * price.fst)
    let output_cost := pyRound5 ((completion_tokens : ℚ) / 1000 * price.snd)
    let total_cost := pyRound5 (input_cost + output_cost)
    Except.ok (⟨input_cost, output_cost, total_cost⟩,
      ⟨ledger.cost + total_cost,
       ledger.tokens + prompt_tokens + completion_tokens⟩)

/-- The two concrete image-hosting providers the facade can select
(src/Agent/utilities/imguploader/imghandler.py). -/
inductive ImgProvider where
  | imgbb
  | freeimagehost
deriving Repr, DecidableEq

/-- The two image-hosting API keys of `Config`
(src/Agent/config/config.py): environment-sourced strings defaulting
to `""` (falsy) when unset. -/
structure ImgConfig where
  IMGBB_API_KEY : String
  FREEIMAGEHOST_API_KEY : String
deriving Repr, DecidableEq

/-- Embedding of `ImageUploader._select_uploader`
(src/Agent/utilities/imguploader/imghandler.py, lines 60-71). -/
def select_uploader (config : ImgConfig) (service : String) :
    Option ImgProvider :=
  if service = "imgbb" ∨ (service = "auto" ∧ config.IMGBB_API_KEY ≠ "") then
    some ImgProvider.imgbb
  else if service = "freeimagehost" ∨
      (service = "auto" ∧ config.FREEIMAGEHOST_API_KEY ≠ "") then
    some ImgProvider.freeimagehost
  else none

/-- Possible outcomes of a concrete provider's `upload_from_base64`:
a URL, `None` (upload failed), or a raised exception. -/
inductive UploadOutcome where
  | ok (url : String)
  | noValue
  | raised (message : String)
deriving Repr, DecidableEq

/-- The inline data-URI fallback literal. -/
def base64Fallback (base64_data : String) : String :=
  "data:image/png;base64," ++ base64_data

/-- Embedding of `ImageUploader.upload_from_base64`
(src/Agent/utilities/imguploader/imghandler.py, lines 21-54).
`attempt` stands for the selected provider's upload (its network
behavior is external); all three fallback branches of the source
return the inline data URI, so the result type is a plain `String` —
no exception escapes and no `None` is returned. -/
def upload_from_base64 (uploader : Option ImgProvider)
    (attempt : ImgProvider → UploadOutcome) (base64_data : String) : String :=
  match uploader with
  | none => base64Fallback base64_data
  | some u =>
    match attempt u with
    | UploadOutcome.ok url => url
    | UploadOutcome.noValue => base64Fallback base64_data
    | UploadOutcome.raised _ => base64Fallback base64_data

/-- Parameter-validation failures raised by the provider adapters
before any network call (the message interpolates the float value). -/
inductive ParamError where
  | invalidTemperature (t : ℚ)
  | invalidTopP (p : ℚ)
deriving Repr, DecidableEq

/-- Which sampling parameters `OpenAIClient.create_chat_completion`
puts into its request params
(src/Agent/ai/llm/_openaiclient.py, lines 40-49): after validating
temperature against 0–2 and top_p against 0–1, it always includes
both. -/
def openaiSamplingParams (temperature top_p : ℚ) :
    Except ParamError (List (String × ℚ)) :=
  if ¬(0 ≤ temperature ∧ temperature ≤ 2) then
    Except.error (ParamError.invalidTemperature temperature)
  else if ¬(0 ≤ top_p ∧ top_p ≤ 1) then
    Except.error (ParamError.invalidTopP top_p)
  else Except.ok [("temperature", temperature), ("top_p", top_p)]

/-- Which sampling parameters `AnthropicClient.create_chat_completion`
puts into its request params
(src/Agent/ai/llm/_anthropic.py, lines 37-61): after validating
temperature against 0–1 and top_p against 0–1, it sends `temperature`
when it differs from its default 1.0, otherwise `top_p` when that
differs from its default 1.0, otherwise `temperature`. -/
def anthropicSamplingParams (temperature top_p : ℚ) :
    Except ParamError (List (String × ℚ)) :=
  if ¬(0 ≤ temperature ∧ temperature ≤ 1) then
    Except.error (ParamError.invalidTemperature temperature)
  else if ¬(0 ≤ top_p ∧ top_p ≤ 1) then
    Except.error (ParamError.invalidTopP top_p)
  else if temperature ≠ 1 then Except.ok [("temperature", temperature)]
  else if top_p ≠ 1 then Except.ok [("top_p", top_p)]
  else Except.ok [("temperature", temperature)]

/-- Which sampling parameters `OllamaClient.create_chat_completion`
puts into its request (src/Agent/ai/llm/_ollama.py, lines 65-75):
after validating temperature against 0–2 and top_p against 0–1, it
always includes both. -/
def ollamaSamplingParams (temperature top_p : ℚ) :
    Except ParamError (List (String × ℚ)) :=
  if ¬(0 ≤ temperature ∧ temperature ≤ 2) then
    Except.error (ParamError.invalidTemperature temperature)
  else if ¬(0 ≤ top_p ∧ top_p ≤ 1) then
    Except.error (ParamError.invalidTopP top_p)
  else Except.ok [("temperature", temperature), ("top_p", top_p)]

/-- A locator builder standing in for `build_locator_from_element` in
concrete examples. -/
def exampleLocator (c : UiCandidate) : String := "id=" ++ c.resource_id

/-- A clickable, enabled example candidate with the given resource id. -/
def exampleCandidate (rid : String) : UiCandidate :=
  { text := ""
    resource_id := rid
    class_name := "android.widget.Button"
    content_desc := ""
    package := ""
    clickable := true
    enabled := true
    bounds := ""
    index := "" }

/-- Five example UI candidates, as in the spec's tool-call example. -/
def exampleCandidates : List UiCandidate :=
  [exampleCandidate "btn1", exampleCandidate "btn2", exampleCandidate "btn3",
   exampleCandidate "btn4", exampleCandidate "btn5"]

/-- C1: in the Do flow's tool-calling dispatch, for every candidate
list: `tap_element(i)` and `input_text(i, text)` fail with the
explicit out-of-range message naming the valid range `1..n` whenever
`i < 1` or `i > n`; in range, the candidate at 0-based index `i-1`
(stated with `k = i-1`) is resolved through the locator builder and
dispatched — exactly one tap for `tap_element`, and for `input_text` a
clear of the field followed by typing; `input_text` with missing or
empty text fails with the missing-text error. -/
theorem do_tool_dispatch_contract
    (buildLocator : UiCandidate → String) (candidates : List UiCandidate) :
    (∀ i : Int, (i < 1 ∨ i > (candidates.length : Int)) →
      execToolCall buildLocator candidates ⟨"tap_element", some i, none⟩ =
        Except.error (outOfRangeMsg (some i) candidates.length)) ∧
    (∀ (i : Int) (t : Option String),
      (i < 1 ∨ i > (candidates.length : Int)) →
      execToolCall buildLocator candidates ⟨"input_text", some i, t⟩ =
        Except.error (outOfRangeMsg (some i) candidates.length)) ∧
    (∀ (k : Nat) (h : k < candidates.length),
      execToolCall buildLocator candidates
          ⟨"tap_element", some ((k : Int) + 1), none⟩ =
        Except.ok [RfCall.clickElement (buildLocator (candidates.get ⟨k, h⟩))]) ∧
    (∀ (k : Nat) (h : k < candidates.length) (t : String), t ≠ "" →
      execToolCall buildLocator candidates
          ⟨"input_text", some ((k : Int) + 1), some t⟩ =
        Except.ok [RfCall.clearText (buildLocator (candidates.get ⟨k, h⟩)),
                   RfCall.inputText (buildLocator (candidates.get ⟨k, h⟩)) t]) ∧
    (∀ (k : Nat), k < candidates.length →
      execToolCall buildLocator candidates
          ⟨"input_text", some ((k : Int) + 1), none⟩ =
        Except.error missingTextMsg ∧
      execToolCall buildLocator candidates
          ⟨"input_text", some ((k : Int) + 1), some ""⟩ =
        Except.error missingTextMsg) := by
  have hrange : ∀ k : Nat, k < candidates.length →
      ¬(((k : Int) + 1) < 1 ∨ ((k : Int) + 1) > (candidates.length : Int)) := by
    intro k hk
    omega
  have hidx : ∀ k : Nat, (((k : Int) + 1) - 1).toNat = k := by
    intro k
    omega
  refine ⟨?_, ?_, ?_, ?_, ?_⟩
  · intro i hi
    simp [execToolCall, hi]
  · intro i t hi
    simp [execToolCall, hi]
  · intro k h
    simp [execToolCall, hrange k h, hidx k, List.getD_eq_getElem, h,
      List.get_eq_getElem]
    omega
  · intro k h t ht
    simp [execToolCall, hrange k h, hidx k, List.getD_eq_getElem, h,
      List.get_eq_getElem, ht]
    omega
  · intro k h
    constructor
    · simp [execToolCall, hrange k h]
      intro hcc
      exact absurd hcc (by omega)
    · simp [execToolCall, hrange k h]
      intro hcc
      exact absurd hcc (by omega)

/-- Witness for C1 at the spec's concrete example: five candidates;
`tap_element(2)` taps candidate 1 (0-based) exactly once;
`tap_element(0)` and `tap_element(6)` fail naming the range `1-5`;
`input_text(2, "hello")` clears then types; `input_text(2, "")` fails
with the missing-text message. -/
theorem do_tool_dispatch_contract_witness :
    execToolCall exampleLocator exampleCandidates
        ⟨"tap_element", some 2, none⟩ =
      Except.ok [RfCall.clickElement "id=btn2"] ∧
    execToolCall exampleLocator exampleCandidates
        ⟨"tap_element", some 0, none⟩ =
      Except.error "Invalid element_index: 0. Must be 1-5" ∧
    execToolCall exampleLocator exampleCandidates
        ⟨"tap_element", some 6, none⟩ =
      Except.error "Invalid element_index: 6. Must be 1-5" ∧
    execToolCall exampleLocator exampleCandidates
        ⟨"input_text", some 2, some "hello"⟩ =
      Except.ok [RfCall.clearText "id=btn2", RfCall.inputText "id=btn2" "hello"] ∧
    execToolCall exampleLocator exampleCandidates
        ⟨"input_text", some 2, some ""⟩ =
      Except.error missingTextMsg := by
  have h := do_tool_dispatch_contract exampleLocator exampleCandidates
  refine ⟨?_, ?_, ?_, ?_, ?_⟩
  · have := h.2.2.1 1 (by decide)
    simpa using this
  · have := h.1 0 (by decide)
    simpa [outOfRangeMsg] using this
  · have := h.1 6 (by decide)
    simpa [outOfRangeMsg] using this
  · have := h.2.2.2.1 1 (by decide) "hello" (by decide)
    simpa using this
  · exact (h.2.2.2.2 1 (by decide)).2

/-- C2: in the VisualCheck flow the result assertion raises exactly
when `verification_result` is not true, and the raised failure message
contains the analysis text; when issues are present, it ends with
exactly the first three issues joined by `", "` (so any issue past the
third is excluded), and with no issues it is exactly the
analysis-carrying sentence. -/
theorem visual_check_assertion_contract (b : Bool) (analysis : String)
    (issues : List String) :
    ((∃ e, assertVisualResult (Json.bool b) analysis issues =
        Except.error e) ↔ b = false) ∧
    (∀ e, assertVisualResult (Json.bool b) analysis issues =
        Except.error e →
      (∃ pre post, e = pre ++ analysis ++ post) ∧
      (issues ≠ [] →
        e = "Visual verification failed. Analysis: " ++ analysis ++
          " Issues: " ++ String.intercalate ", " (issues.take 3)) ∧
      (issues = [] →
        e = "Visual verification failed. Analysis: " ++ analysis)) := by
  cases b with
  | true =>
    constructor
    · constructor
      · rintro ⟨e, he⟩
        simp [assertVisualResult, Json.falsy] at he
      · intro hb
        exact absurd hb (by decide)
    · intro e he
      simp [assertVisualResult, Json.falsy] at he
  | false =>
    have hval : assertVisualResult (Json.bool false) analysis issues =
        Except.error (visualFailMsg analysis issues) := by
      simp [assertVisualResult, Json.falsy]
    constructor
    · simp [hval]
    · intro e h
      rw [hval] at h
      have hee : visualFailMsg analysis issues = e := by
        simpa using h
      subst hee
      by_cases hi : issues = []
      · subst hi
        refine ⟨⟨"Visual verification failed. Analysis: ", "", ?_⟩, ?_, ?_⟩
        · simp [visualFailMsg]
        · intro hne
          exact absurd rfl hne
        · intro _
          simp [visualFailMsg]
      · refine ⟨⟨"Visual verification failed. Analysis: ",
            " Issues: " ++ String.intercalate ", " (issues.take 3), ?_⟩,
            ?_, ?_⟩
        · simp [visualFailMsg, List.isEmpty_iff, hi, String.append_assoc]
        · intro _
          simp [visualFailMsg, List.isEmpty_iff, hi, String.append_assoc]
        · intro h0
          exact absurd h0 hi

/-- Witness for C2 at the spec's concrete example: a false result with
analysis `"Logo absent"` and four issues raises, and the message holds
the analysis and exactly the first three issues, comma-joined,
excluding `"extra banner"`. -/
theorem visual_check_assertion_contract_witness :
    (["wrong color", "wrong position", "missing tagline", "extra banner"] ≠
      ([] : List String)) ∧
    ∃ e, assertVisualResult (Json.bool false) "Logo absent"
        ["wrong color", "wrong position", "missing tagline", "extra banner"] =
        Except.error e ∧
      e = "Visual verification failed. Analysis: Logo absent Issues: wrong color, wrong position, missing tagline" := by
  refine ⟨by decide,
    visualFailMsg "Logo absent"
      ["wrong color", "wrong position", "missing tagline", "extra banner"],
    rfl, ?_⟩
  have h := (visual_check_assertion_contract false "Logo absent"
      ["wrong color", "wrong position", "missing tagline", "extra banner"]).2
      (visualFailMsg "Logo absent"
        ["wrong color", "wrong position", "missing tagline", "extra banner"])
      rfl
  have h3 := h.2.1 (by decide)
  rw [h3]
  decide

/-- C3: the AI-request step of `AgentStepRunner.visual_check` calls
`ask_ai_visual_check` with keyword `image_url`, which is not a
parameter of that method (`image_base_or_url` is), so for every
instruction and uploaded image the step raises a `TypeError` and never
reaches the model call — no VisualCheck invocation can succeed. -/
theorem visual_check_kwarg_type_error
    (aiCall : String → String → ℚ → Except String Unit)
    (instruction image_url : String) :
    visualCheckAiRequestStep aiCall instruction image_url =
      Except.error visualCheckTypeErrorMsg ∧
    visualCheckCallKeywords.contains "image_url" = true ∧
    askAiVisualCheckParams.contains "image_url" = false ∧
    kwargsBindOk askAiVisualCheckParams visualCheckCallKeywords = false :=
  ⟨rfl, rfl, rfl, rfl⟩

/-- Helper: `dict.get(k)` returns `None` when no binding has key
`k`. -/
theorem dictGet_eq_none {reply : List (String × Json)} {k : String}
    (h : ∀ kv ∈ reply, kv.fst ≠ k) : dictGet reply k = none := by
  have : reply.find? (fun kv => kv.fst == k) = none := by
    rw [List.find?_eq_none]
    intro x hx
    simpa using h x hx
  simp [dictGet, this]

/-- C4: every parsed model reply conforming to the Do output schema
(whose only possible keys are `action`, `locator`, `text`, `options`,
`candidates`) has no `tool_calls` entry, so the Do dispatch fails with
"AI did not return any tool calls". -/
theorem do_schema_reply_never_dispatches (reply : List (String × Json))
    (h : conformsToDoSchema reply) :
    selectFirstToolCall reply =
      Except.error "AI did not return any tool calls" := by
  have hnone : dictGet reply "tool_calls" = none := by
    apply dictGet_eq_none
    intro kv hkv hk
    have hmem := h.1 kv hkv
    rw [hk] at hmem
    simp [doSchemaKeys] at hmem
  simp [selectFirstToolCall, hnone, Json.falsy]

/-- A reply that is exactly what the Do output schema prescribes. -/
def exampleDoReply : List (String × Json) :=
  [("action", Json.str "tap"),
   ("locator", Json.obj [("strategy", Json.str "xpath"),
     ("value", Json.str "//android.widget.Button[1]")])]

/-- Witness for C4: a concrete schema-conforming reply makes the Do
dispatch fail with the no-tool-calls error. -/
theorem do_schema_reply_never_dispatches_witness :
    conformsToDoSchema exampleDoReply ∧
    selectFirstToolCall exampleDoReply =
      Except.error "AI did not return any tool calls" := by
  have hc : conformsToDoSchema exampleDoReply := by
    refine ⟨?_, ⟨"tap", rfl, by decide⟩,
      ⟨Json.obj [("strategy", Json.str "xpath"),
        ("value", Json.str "//android.widget.Button[1]")], rfl,
        ⟨[("strategy", Json.str "xpath"),
          ("value", Json.str "//android.widget.Button[1]")], rfl,
          ⟨"xpath", rfl, by decide⟩,
          ⟨"//android.widget.Button[1]", rfl⟩⟩⟩⟩
    intro kv hkv
    simp only [exampleDoReply, List.mem_cons, List.not_mem_nil, or_false] at hkv
    rcases hkv with rfl | rfl
    · decide
    · decide
  exact ⟨hc, do_schema_reply_never_dispatches exampleDoReply hc⟩

/-- Descending-score order: `a` may come before `b` when `b`'s score
is no larger. -/
def scoreGe (a b : UiCandidate) : Prop := sortKey b ≤ sortKey a

/-- Helper: inserting keeps a permutation. -/
theorem insertByScore_perm (c : UiCandidate) (l : List UiCandidate) :
    List.Perm (insertByScore c l) (c :: l) := by
  induction l with
  | nil => simp [insertByScore]
  | cons x xs ih =>
    by_cases h : sortKey c < sortKey x
    · simp only [insertByScore, if_pos h]
      exact List.Perm.trans (List.Perm.cons x ih) (List.Perm.swap c x xs)
    · simp only [insertByScore, if_neg h]
      exact List.Perm.refl _

/-- Helper: sorting is a permutation of the input. -/
theorem sortCandidates_perm (l : List UiCandidate) :
    List.Perm (sortCandidates l) l := by
  induction l with
  | nil => simp [sortCandidates]
  | cons x xs ih =>
    simp only [sortCandidates]
    exact List.Perm.trans (insertByScore_perm x (sortCandidates xs))
      (List.Perm.cons x ih)

/-- Helper: inserting into a descending list keeps it descending. -/
theorem insertByScore_sorted (c : UiCandidate) (l : List UiCandidate)
    (h : l.Pairwise scoreGe) : (insertByScore c l).Pairwise scoreGe := by
  induction l with
  | nil => simp [insertByScore, List.pairwise_singleton]
  | cons x xs ih =>
    rcases List.pairwise_cons.mp h with ⟨hx, hxs⟩
    by_cases hc : sortKey c < sortKey x
    · rw [show insertByScore c (x :: xs) =
          if sortKey c < sortKey x then x :: insertByScore c xs
          else c :: x :: xs from rfl, if_pos hc]
      refine List.pairwise_cons.mpr ⟨?_, ih hxs⟩
      intro y hy
      have hmem : y ∈ c :: xs := (insertByScore_perm c xs).mem_iff.mp hy
      rcases List.mem_cons.mp hmem with rfl | hyx
      · exact le_of_lt hc
      · exact hx y hyx
    · rw [show insertByScore c (x :: xs) =
          if sortKey c < sortKey x then x :: insertByScore c xs
          else c :: x :: xs from rfl, if_neg hc]
      refine List.pairwise_cons.mpr ⟨?_, h⟩
      intro y hy
      rcases List.mem_cons.mp hy with rfl | hyx
      · exact le_of_not_lt hc
      · exact le_trans (hx y hyx) (le_of_not_lt hc)

/-- Helper: the sort output is descending by score. -/
theorem sortCandidates_sorted (l : List UiCandidate) :
    (sortCandidates l).Pairwise scoreGe := by
  induction l with
  | nil => simp [sortCandidates]
  | cons x xs ih =>
    simp only [sortCandidates]
    exact insertByScore_sorted x (sortCandidates xs) ih

/-- Helper: stability of the insertion, expressed score-wise — the
sublist of any fixed score is preserved up to prepending the new
element when it has that score. -/
theorem filter_insertByScore (c : UiCandidate) (l : List UiCandidate)
    (s : Nat) :
    (insertByScore c l).filter (fun x => decide (sortKey x = s)) =
      if sortKey c = s then
        c :: l.filter (fun x => decide (sortKey x = s))
      else l.filter (fun x => decide (sortKey x = s)) := by
  induction l with
  | nil =>
    by_cases h : sortKey c = s <;> simp [insertByScore, h]
  | cons x xs ih =>
    by_cases hcx : sortKey c < sortKey x
    · rw [show insertByScore c (x :: xs) =
          if sortKey c < sortKey x then x :: insertByScore c xs
          else c :: x :: xs from rfl, if_pos hcx]
      by_cases hs : sortKey c = s
      · have hxs : ¬(sortKey x = s) := by omega
        simp [List.filter_cons, hxs, ih, hs]
      · simp [List.filter_cons, ih, hs]
    · rw [show insertByScore c (x :: xs) =
          if sortKey c < sortKey x then x :: insertByScore c xs
          else c :: x :: xs from rfl, if_neg hcx]
      by_cases hs : sortKey c = s <;> simp [List.filter_cons, hs]

/-- Helper: stability of the sort — elements of each fixed score come
out in their input order. -/
theorem filter_sortCandidates (l : List UiCandidate) (s : Nat) :
    (sortCandidates l).filter (fun x => decide (sortKey x = s)) =
      l.filter (fun x => decide (sortKey x = s)) := by
  induction l with
  | nil => simp [sortCandidates]
  | cons x xs ih =>
    by_cases hs : sortKey x = s
    · simp [sortCandidates, filter_insertByScore, hs, ih, List.filter_cons]
    · simp [sortCandidates, filter_insertByScore, hs, ih, List.filter_cons]

/-- Helper: the depth-limited walk returns exactly the clickable and
enabled candidates among the preorder nodes it can reach within its
fuel. -/
theorem walkNodes_eq_filter (fuel : Nat) :
    ∀ n : UiNode, walkNodes fuel n =
      ((preorderAttrs fuel n).map nodeToCandidate).filter candidateKept := by
  induction fuel with
  | zero =>
    intro n
    simp [walkNodes, preorderAttrs]
  | succ fuel ih =>
    intro n
    have hl : ∀ ns : List UiNode,
        (ns.map (walkNodes fuel)).flatten =
          (((ns.map (preorderAttrs fuel)).flatten).map
            nodeToCandidate).filter candidateKept := by
      intro ns
      induction ns with
      | nil => simp
      | cons head tail iht =>
        simp [ih head, iht, List.filter_append]
    by_cases hk : candidateKept (nodeToCandidate n.attrs)
    · simp [walkNodes, preorderAttrs, hl n.children, List.filter_cons, hk]
    · simp [walkNodes, preorderAttrs, hl n.children, List.filter_cons, hk]

/-- C5 (amended): `parse_ui` collects exactly the clickable+enabled
nodes among those its depth-limited walk reaches (preorder, root at
depth 0, maximum depth 12), sorts them descending by the relevance
score with otherwise-stable order (a permutation preserving, for each
score, the input order of its elements), and truncates to
`max_items`; every returned candidate is clickable and enabled and the
result length never exceeds `max_items`. -/
theorem parse_ui_contract (root : UiNode) (max_items : Nat) :
    (parse_ui root max_items).length ≤ max_items ∧
    (parse_ui root max_items).Pairwise scoreGe ∧
    collectCandidates root =
      ((preorderAttrs (maxWalkDepth + 1) root).map
        nodeToCandidate).filter candidateKept ∧
    List.Perm (sortCandidates (collectCandidates root))
      (collectCandidates root) ∧
    (∀ s : Nat,
      (sortCandidates (collectCandidates root)).filter
          (fun x => decide (sortKey x = s)) =
        (collectCandidates root).filter (fun x => decide (sortKey x = s))) ∧
    (∀ c ∈ parse_ui root max_items,
      c.clickable = true ∧ c.enabled = true) := by
  refine ⟨?_, ?_, ?_, sortCandidates_perm _, fun s => filter_sortCandidates _ s, ?_⟩
  · simp [parse_ui]
  · exact List.Pairwise.sublist (List.take_sublist _ _) (sortCandidates_sorted _)
  · exact walkNodes_eq_filter (maxWalkDepth + 1) root
  · intro c hc
    have hc1 : c ∈ sortCandidates (collectCandidates root) :=
      List.mem_of_mem_take hc
    have hc2 : c ∈ collectCandidates root :=
      (sortCandidates_perm _).mem_iff.mp hc1
    simp only [collectCandidates] at hc2
    rw [walkNodes_eq_filter (maxWalkDepth + 1) root] at hc2
    have hk := List.of_mem_filter hc2
    simpa [candidateKept, Bool.and_eq_true] using hk

/-- Attributes of a clickable, enabled node placed at depth 13. -/
def deepAttrs : List (String × String) :=
  [("clickable", "true"), ("enabled", "true"), ("text", "Deep")]

/-- A single-branch tree: `chainNode d` has its only clickable+enabled
node at depth `d`. -/
def chainNode : Nat → UiNode
  | 0 => UiNode.node deepAttrs []
  | d + 1 => UiNode.node [] [chainNode d]

/-- Counterexample to C5 as stated: the tree `chainNode 13` has 14
nodes (fewer than `max_items = 20`), one of which is clickable and
enabled, yet `parse_ui` returns the empty list — the walk stops at
depth 12, so `parse_ui` does not collect every clickable+enabled
node. -/
theorem parse_ui_depth_counterexample :
    deepAttrs ∈ preorderAttrs 100 (chainNode 13) ∧
    (nodeToCandidate deepAttrs).clickable = true ∧
    (nodeToCandidate deepAttrs).enabled = true ∧
    (preorderAttrs 100 (chainNode 13)).length = 14 ∧
    parse_ui (chainNode 13) 20 = [] := by
  refine ⟨by decide, by decide, by decide, by decide, ?_⟩
  have h : collectCandidates (chainNode 13) = [] := by decide
  simp [parse_ui, h, sortCandidates]

/-- Fixture node attributes from the spec's ranking example: node A
has `text` and `resource-id` (score 4), node B only `content-desc`
(score 2), node C none of the three (score 0). -/
def fixtureAttrsA : List (String × String) :=
  [("clickable", "true"), ("enabled", "true"), ("text", "OK"),
   ("resource-id", "btn_ok")]

/-- Attributes of fixture node B. -/
def fixtureAttrsB : List (String × String) :=
  [("clickable", "true"), ("enabled", "true"), ("content-desc", "menu")]

/-- Attributes of fixture node C. -/
def fixtureAttrsC : List (String × String) :=
  [("clickable", "true"), ("enabled", "true")]

/-- The ranking fixture: a non-clickable root whose children are C, B,
A in that (unsorted) document order. -/
def fixtureRoot : UiNode :=
  UiNode.node []
    [UiNode.node fixtureAttrsC [], UiNode.node fixtureAttrsB [],
     UiNode.node fixtureAttrsA []]

/-- Witness for C5 (amended) on the ranking fixture: the result stays
within `max_items`, contains node A — which is clickable and enabled —
and equals `[A, B, C]`, descending by score from document order
`[C, B, A]`. -/
theorem parse_ui_contract_witness :
    (parse_ui fixtureRoot 20).length ≤ 20 ∧
    (nodeToCandidate fixtureAttrsA ∈ parse_ui fixtureRoot 20 ∧
      (nodeToCandidate fixtureAttrsA).clickable = true ∧
      (nodeToCandidate fixtureAttrsA).enabled = true) ∧
    parse_ui fixtureRoot 20 =
      [nodeToCandidate fixtureAttrsA, nodeToCandidate fixtureAttrsB,
       nodeToCandidate fixtureAttrsC] := by
  have h := parse_ui_contract fixtureRoot 20
  have hmem : nodeToCandidate fixtureAttrsA ∈ parse_ui fixtureRoot 20 := by
    decide
  exact ⟨h.1, ⟨hmem, h.2.2.2.2.2 _ hmem⟩, by decide⟩

/-- Counterexample to C6 as stated: on the documented example bbox the
third coordinate is `0.574 * 1080 = 619.92`, which `int()` truncates
to 619, so the function returns `(452, 326, 619, 510)` and not the
claimed `(452, 326, 620, 510)`. -/
theorem bbox_docstring_example_counterexample :
    bbox_to_pixels [419/1000, 170/1000, 574/1000, 266/1000] 1080 1920 =
      Except.ok (452, 326, 619, 510) ∧
    (574 : ℚ)/1000 * 1080 = 61992/100 ∧
    bbox_to_pixels [419/1000, 170/1000, 574/1000, 266/1000] 1080 1920 ≠
      Except.ok (452, 326, 620, 510) := by
  have h : bbox_to_pixels [419/1000, 170/1000, 574/1000, 266/1000]
      1080 1920 = Except.ok (452, 326, 619, 510) := by
    simp only [bbox_to_pixels, Except.ok.injEq, Prod.mk.injEq]
    norm_num [truncToInt]
  refine ⟨h, by norm_num, ?_⟩
  rw [h]
  simp

/-- C6 (amended): `bbox_to_pixels` computes each pixel coordinate as
`int(coordinate * dimension)` — truncation toward zero, which for the
nonnegative normalized inputs is the floor, never rounding up — so the
documented example bbox yields `(452, 326, 619, 510)` (not 620 on the
third coordinate), and every bbox whose length is not exactly 4
produces the invalid-input error naming the received length. -/
theorem bbox_to_pixels_contract :
    (∀ x1 y1 x2 y2 : ℚ, ∀ w h : ℤ,
      bbox_to_pixels [x1, y1, x2, y2] w h =
        Except.ok (truncToInt (x1 * w), truncToInt (y1 * h),
          truncToInt (x2 * w), truncToInt (y2 * h))) ∧
    (∀ q : ℚ, 0 ≤ q →
      (truncToInt q : ℚ) ≤ q ∧ q < (truncToInt q : ℚ) + 1) ∧
    (∀ (bbox : List ℚ) (w h : ℤ), bbox.length ≠ 4 →
      bbox_to_pixels bbox w h =
        Except.error ("bbox doit contenir 4 valeurs, reçu " ++
          toString bbox.length)) ∧
    bbox_to_pixels [419/1000, 170/1000, 574/1000, 266/1000] 1080 1920 =
      Except.ok (452, 326, 619, 510) := by
  refine ⟨fun x1 y1 x2 y2 w h => rfl, ?_, ?_, ?_⟩
  · intro q hq
    have hfl : truncToInt q = ⌊q⌋ := by
      simp [truncToInt, not_lt.mpr hq]
    rw [hfl]
    exact ⟨Int.floor_le q, Int.lt_floor_add_one q⟩
  · intro bbox w h hlen
    rcases bbox with _ | ⟨a, _ | ⟨b, _ | ⟨c, _ | ⟨d, _ | ⟨e, rest⟩⟩⟩⟩⟩
    · rfl
    · rfl
    · rfl
    · rfl
    · simp at hlen
    · rfl
  · simp only [bbox_to_pixels, Except.ok.injEq, Prod.mk.injEq]
    norm_num [truncToInt]

/-- Witness for C6 (amended): a 3-value bbox raises the invalid-input
error, and truncation at `q = 1` satisfies the floor bounds. -/
theorem bbox_to_pixels_contract_witness :
    bbox_to_pixels [0, 0, 0] 1080 1920 =
      Except.error "bbox doit contenir 4 valeurs, reçu 3" ∧
    (0 ≤ (1 : ℚ) ∧
      ((truncToInt 1 : ℚ) ≤ 1 ∧ (1 : ℚ) < (truncToInt 1 : ℚ) + 1)) := by
  constructor
  · exact bbox_to_pixels_contract.2.2.1 [0, 0, 0] 1080 1920 (by decide)
  · exact ⟨zero_le_one, bbox_to_pixels_contract.2.1 1 zero_le_one⟩

/-- C7: `calculate_cost` computes `input_cost`, `output_cost` and
`total_cost` with `round(·, 5)` as specified and adds `total_cost` and
`prompt_tokens + completion_tokens` to the ledger; with
`gpt-4o-mini` priced `{input: 0.00015, output: 0.0006}`, two
sequential `calculate_cost(1000, 500, "gpt-4o-mini")` calls starting
from the ledger `{cost: 0, tokens: 0}` each add
`total_cost = 0.00045 = 9/20000` and leave the ledger at
`{cost: 0.0009 = 9/10000, tokens: 3000}`. -/
theorem calculate_cost_contract (pricing : List (String × ℚ × ℚ))
    (self_model : String)
    (hp : lookupPricing pricing "gpt-4o-mini" = some (3/20000, 3/5000)) :
    (∀ (ledger : CostLedger) (pt ct : ℤ) (m : String) (pin pout : ℚ),
      lookupPricing pricing m = some (pin, pout) → m ≠ "" →
      calculate_cost pricing self_model ledger pt ct (some m) =
        Except.ok
          (⟨pyRound5 ((pt : ℚ) / 1000 * pin),
            pyRound5 ((ct : ℚ) / 1000 * pout),
            pyRound5 (pyRound5 ((pt : ℚ) / 1000 * pin) +
              pyRound5 ((ct : ℚ) / 1000 * pout))⟩,
           ⟨ledger.cost + pyRound5 (pyRound5 ((pt : ℚ) / 1000 * pin) +
              pyRound5 ((ct : ℚ) / 1000 * pout)),
            ledger.tokens + pt + ct⟩)) ∧
    (∃ bd1 L1 bd2 L2,
      calculate_cost pricing self_model ⟨0, 0⟩ 1000 500
          (some "gpt-4o-mini") = Except.ok (bd1, L1) ∧
      bd1.total_cost = 9/20000 ∧ L1.cost = 9/20000 ∧ L1.tokens = 1500 ∧
      calculate_cost pricing self_model L1 1000 500
          (some "gpt-4o-mini") = Except.ok (bd2, L2) ∧
      bd2.total_cost = 9/20000 ∧ L2.cost = 9/10000 ∧ L2.tokens = 3000) := by
  have hgen : ∀ (ledger : CostLedger) (pt ct : ℤ) (m : String)
      (pin pout : ℚ), lookupPricing pricing m = some (pin, pout) → m ≠ "" →
      calculate_cost pricing self_model ledger pt ct (some m) =
        Except.ok
          (⟨pyRound5 ((pt : ℚ) / 1000 * pin),
            pyRound5 ((ct : ℚ) / 1000 * pout),
            pyRound5 (pyRound5 ((pt : ℚ) / 1000 * pin) +
              pyRound5 ((ct : ℚ) / 1000 * pout))⟩,
           ⟨ledger.cost + pyRound5 (pyRound5 ((pt : ℚ) / 1000 * pin) +
              pyRound5 ((ct : ℚ) / 1000 * pout)),
            ledger.tokens + pt + ct⟩) := by
    intro ledger pt ct m pin pout hm hmne
    simp [calculate_cost, hm, hmne]
  have h1 : pyRound5 (((1000 : ℤ) : ℚ) / 1000 * (3/20000)) = 3/20000 := by
    norm_num [pyRound5, roundHalfEvenToInt]
  have h2 : pyRound5 (((500 : ℤ) : ℚ) / 1000 * (3/5000)) = 3/10000 := by
    norm_num [pyRound5, roundHalfEvenToInt]
  have h3 : pyRound5 ((3 : ℚ)/20000 + 3/10000) = 9/20000 := by
    norm_num [pyRound5, roundHalfEvenToInt]
  have hcall : ∀ L : CostLedger,
      calculate_cost pricing self_model L 1000 500 (some "gpt-4o-mini") =
        Except.ok (⟨3/20000, 3/10000, 9/20000⟩,
          ⟨L.cost + 9/20000, L.tokens + 1000 + 500⟩) := by
    intro L
    rw [hgen L 1000 500 "gpt-4o-mini" (3/20000) (3/5000) hp (by decide),
      h1, h2, h3]
  refine ⟨hgen, _, _, _, _, hcall ⟨0, 0⟩, rfl, by norm_num, by norm_num,
    hcall _, rfl, by norm_num, by norm_num⟩

/-- The pricing table of the claim's scenario:
`gpt-4o-mini ↦ {input: 0.00015, output: 0.0006}` per 1000 tokens. -/
def examplePricing : List (String × ℚ × ℚ) :=
  [("gpt-4o-mini", (3/20000, 3/5000))]

/-- Witness for C7 on the concrete pricing table. -/
theorem calculate_cost_contract_witness :
    lookupPricing examplePricing "gpt-4o-mini" = some (3/20000, 3/5000) ∧
    (∃ bd1 L1 bd2 L2,
      calculate_cost examplePricing "gpt-4o-mini" ⟨0, 0⟩ 1000 500
          (some "gpt-4o-mini") = Except.ok (bd1, L1) ∧
      bd1.total_cost = 9/20000 ∧ L1.cost = 9/20000 ∧ L1.tokens = 1500 ∧
      calculate_cost examplePricing "gpt-4o-mini" L1 1000 500
          (some "gpt-4o-mini") = Except.ok (bd2, L2) ∧
      bd2.total_cost = 9/20000 ∧ L2.cost = 9/10000 ∧ L2.tokens = 3000) :=
  ⟨rfl, (calculate_cost_contract examplePricing "gpt-4o-mini" rfl).2⟩

/-- C8: the image-upload facade never raises and never returns a
missing value — with no provider configured (both API keys empty under
`service = "auto"`) it returns the inline data URI, and the same for a
provider upload that returns no value or raises; in every remaining
case it returns the provider's URL; in particular, with no keys and
`service = "auto"`, uploading `"QUJD"` returns exactly
`"data:image/png;base64,QUJD"`. -/
theorem image_upload_fallback_contract
    (attempt : ImgProvider → UploadOutcome) (base64_data : String) :
    (∀ config : ImgConfig, config.IMGBB_API_KEY = "" →
      config.FREEIMAGEHOST_API_KEY = "" →
      select_uploader config "auto" = none) ∧
    upload_from_base64 none attempt base64_data =
      base64Fallback base64_data ∧
    (∀ u, attempt u = UploadOutcome.noValue →
      upload_from_base64 (some u) attempt base64_data =
        base64Fallback base64_data) ∧
    (∀ u msg, attempt u = UploadOutcome.raised msg →
      upload_from_base64 (some u) attempt base64_data =
        base64Fallback base64_data) ∧
    (∀ uploader, upload_from_base64 uploader attempt base64_data =
        base64Fallback base64_data ∨
      ∃ u url, uploader = some u ∧ attempt u = UploadOutcome.ok url ∧
        upload_from_base64 uploader attempt base64_data = url) ∧
    upload_from_base64 (select_uploader ⟨"", ""⟩ "auto") attempt "QUJD" =
      "data:image/png;base64,QUJD" := by
  refine ⟨?_, rfl, ?_, ?_, ?_, ?_⟩
  · intro config h1 h2
    simp [select_uploader, h1, h2]
  · intro u hu
    simp [upload_from_base64, hu]
  · intro u msg hu
    simp [upload_from_base64, hu]
  · intro uploader
    cases uploader with
    | none => exact Or.inl rfl
    | some u =>
      cases h : attempt u with
      | ok url => exact Or.inr ⟨u, url, rfl, h, by simp [upload_from_base64, h]⟩
      | noValue => exact Or.inl (by simp [upload_from_base64, h])
      | raised msg => exact Or.inl (by simp [upload_from_base64, h])
  · rfl

/-- Witness for C8: both fallback provider outcomes and the concrete
no-key `"QUJD"` example. -/
theorem image_upload_fallback_contract_witness :
    select_uploader ⟨"", ""⟩ "auto" = none ∧
    upload_from_base64 none (fun _ => UploadOutcome.noValue) "QUJD" =
      "data:image/png;base64,QUJD" ∧
    upload_from_base64 (some ImgProvider.imgbb)
        (fun _ => UploadOutcome.noValue) "QUJD" =
      "data:image/png;base64,QUJD" ∧
    upload_from_base64 (some ImgProvider.imgbb)
        (fun _ => UploadOutcome.raised "boom") "QUJD" =
      "data:image/png;base64,QUJD" := by
  have h1 := image_upload_fallback_contract
    (fun _ => UploadOutcome.noValue) "QUJD"
  have h2 := image_upload_fallback_contract
    (fun _ => UploadOutcome.raised "boom") "QUJD"
  exact ⟨h1.1 ⟨"", ""⟩ rfl rfl, h1.2.1,
    h1.2.2.1 ImgProvider.imgbb rfl,
    h2.2.2.2.1 ImgProvider.imgbb "boom" rfl⟩

/-- C9: `to_rf_locator` maps each of the six known strategies exactly
as documented, returns the raw value for an unknown strategy, and
raises the invalid-input error when the strategy or the value is
missing. -/
theorem to_rf_locator_contract :
    (∀ v : String, v ≠ "" →
      to_rf_locator (some "id") (some v) = Except.ok ("id=" ++ v) ∧
      to_rf_locator (some "accessibility_id") (some v) =
        Except.ok ("accessibility_id=" ++ v) ∧
      to_rf_locator (some "xpath") (some v) = Except.ok v ∧
      to_rf_locator (some "class_name") (some v) =
        Except.ok ("class=" ++ v) ∧
      to_rf_locator (some "android_uiautomator") (some v) =
        Except.ok ("android=uiautomator=" ++ v) ∧
      to_rf_locator (some "ios_predicate") (some v) =
        Except.ok ("-ios predicate string:" ++ v)) ∧
    (∀ s v : String, s ≠ "" → v ≠ "" → s ∉ locatorStrategies →
      to_rf_locator (some s) (some v) = Except.ok v) ∧
    (∀ v, to_rf_locator none v =
      Except.error "Locator doit inclure \x27strategy\x27 et \x27value\x27") ∧
    (∀ s, to_rf_locator s none =
      Except.error "Locator doit inclure \x27strategy\x27 et \x27value\x27") := by
  refine ⟨?_, ?_, ?_, ?_⟩
  · intro v hv
    refine ⟨?_, ?_, ?_, ?_, ?_, ?_⟩ <;> simp [to_rf_locator, hv]
  · intro s v hs hv hns
    simp only [locatorStrategies, List.mem_cons, List.not_mem_nil, or_false,
      not_or] at hns
    obtain ⟨h1, h2, h3, h4, h5, h6⟩ := hns
    simp [to_rf_locator, hs, hv, h1, h2, h3, h4, h5, h6]
  · intro v
    simp [to_rf_locator]
  · intro s
    simp [to_rf_locator]

/-- Witness for C9 at the spec's examples: `id`/`login_btn`, an xpath
passed through unchanged, an unknown strategy returning the raw value,
and the missing-field error. -/
theorem to_rf_locator_contract_witness :
    to_rf_locator (some "id") (some "login_btn") =
      Except.ok "id=login_btn" ∧
    to_rf_locator (some "xpath") (some "//button[1]") =
      Except.ok "//button[1]" ∧
    to_rf_locator (some "bogus") (some "x") = Except.ok "x" ∧
    to_rf_locator none none =
      Except.error "Locator doit inclure \x27strategy\x27 et \x27value\x27" := by
  have h := to_rf_locator_contract
  exact ⟨(h.1 "login_btn" (by decide)).1,
    (h.1 "//button[1]" (by decide)).2.2.1,
    h.2.1 "bogus" "x" (by decide) (by decide) (by decide),
    h.2.2.1 none⟩

/-- Counterexample to C10 as stated: with both sampling parameters at
their default 1.0, the OpenAI and Ollama adapters include `top_p` in
the request alongside `temperature`; only the Anthropic adapter sends
`temperature` alone, so the claimed behavior does not hold for every
provider adapter. -/
theorem sampling_params_counterexample :
    openaiSamplingParams 1 1 =
      Except.ok [("temperature", 1), ("top_p", 1)] ∧
    ollamaSamplingParams 1 1 =
      Except.ok [("temperature", 1), ("top_p", 1)] ∧
    anthropicSamplingParams 1 1 = Except.ok [("temperature", 1)] := by
  refine ⟨?_, ?_, ?_⟩ <;>
    norm_num [openaiSamplingParams, ollamaSamplingParams,
      anthropicSamplingParams]

/-- C10 (amended): the Anthropic adapter sends `temperature` and not
`top_p` when both are at their default 1.0, and sends only the
non-default one when exactly one of the two differs from its default;
the OpenAI and Ollama adapters instead always send both `temperature`
and `top_p` on every request that passes validation. -/
theorem sampling_params_contract :
    anthropicSamplingParams 1 1 = Except.ok [("temperature", 1)] ∧
    (∀ t : ℚ, 0 ≤ t → t ≤ 1 → t ≠ 1 →
      anthropicSamplingParams t 1 = Except.ok [("temperature", t)]) ∧
    (∀ p : ℚ, 0 ≤ p → p ≤ 1 → p ≠ 1 →
      anthropicSamplingParams 1 p = Except.ok [("top_p", p)]) ∧
    (∀ t p : ℚ, 0 ≤ t → t ≤ 2 → 0 ≤ p → p ≤ 1 →
      openaiSamplingParams t p =
        Except.ok [("temperature", t), ("top_p", p)]) ∧
    (∀ t p : ℚ, 0 ≤ t → t ≤ 2 → 0 ≤ p → p ≤ 1 →
      ollamaSamplingParams t p =
        Except.ok [("temperature", t), ("top_p", p)]) := by
  refine ⟨?_, ?_, ?_, ?_, ?_⟩
  · norm_num [anthropicSamplingParams]
  · intro t ht0 ht1 htn
    norm_num [anthropicSamplingParams, ht0, ht1, htn]
  · intro p hp0 hp1 hpn
    norm_num [anthropicSamplingParams, hp0, hp1, hpn]
  · intro t p ht0 ht2 hp0 hp1
    norm_num [openaiSamplingParams, ht0, ht2, hp0, hp1]
  · intro t p ht0 ht2 hp0 hp1
    norm_num [ollamaSamplingParams, ht0, ht2, hp0, hp1]

/-- Witness for C10 (amended) at concrete parameter values: the Do
flow's `temperature = 0` and a non-default `top_p = 1/2`. -/
theorem sampling_params_contract_witness :
    anthropicSamplingParams 0 1 = Except.ok [("temperature", 0)] ∧
    anthropicSamplingParams 1 (1/2) = Except.ok [("top_p", 1/2)] ∧
    openaiSamplingParams 0 1 =
      Except.ok [("temperature", 0), ("top_p", 1)] ∧
    ollamaSamplingParams 0 1 =
      Except.ok [("temperature", 0), ("top_p", 1)] := by
  have h := sampling_params_contract
  exact ⟨h.2.1 0 (le_refl 0) zero_le_one zero_ne_one,
    h.2.2.1 (1/2) one_half_pos.le one_half_lt_one.le one_half_lt_one.ne,
    h.2.2.2.1 0 1 (le_refl 0) zero_le_two zero_le_one (le_refl 1),
    h.2.2.2.2 0 1 (le_refl 0) zero_le_two zero_le_one (le_refl 1)⟩

end AgentSpec
